import Mathlib

/-!
Verification of the clyde query-language front end.

This file gives a shallow embedding of the parts of the program that the
specification talks about: the token/lexer layer (`parse/lexer.rs`,
`parse/tokens.rs`), the location mini-grammar (`parse/parser.rs`), the
value/type data model and the deferred query engine (`front/data.rs`,
`front/query.rs`, `front/function.rs`), location resolution
(`file_system/mod.rs`), history/variable lookup (`env/repl.rs`,
`front/mod.rs`) and the REPL driver loop (`env/repl.rs`).

Rust `Result` is embedded as `Except`; a reachable Rust panic (out-of-bounds
indexing, slicing a string at a non-character boundary, `unimplemented!()`)
is embedded as an explicit `panic` outcome of the evaluation functions.
Machine integers are `Nat`/`Int`; the one place an integer cast matters
(`id as usize` on an `isize` in `Repl::lookup_numeric_var`) is modelled by
an explicit two's-complement wrap modulo `2 ^ 64`.
-/

namespace Clyde

/-- `file_system::Path` (file_system/mod.rs): an interned file key. -/
structure Path where
  key : Nat
  deriving Repr, DecidableEq

/-- `front::data::Span` (data.rs): a resolved source span. -/
structure DataSpan where
  file : Path
  startLine : Nat
  startColumn : Nat
  endLine : Nat
  endColumn : Nat
  deriving Repr, DecidableEq

/-- `front::data::Position` (data.rs). -/
structure Position where
  file : Path
  line : Nat
  column : Nat
  deriving Repr, DecidableEq

/-- `front::data::Range` (data.rs). -/
inductive Range where
  | file (path : Path)
  | multiFile (paths : List Path)
  | line (path : Path) (ln : Nat)
  | span (s : DataSpan)
  deriving Repr, DecidableEq

/-- `front::data::Identifier` (data.rs). -/
structure Identifier where
  id : Nat
  span : DataSpan
  name : String
  deriving Repr, DecidableEq

/-- `front::data::Definition` (data.rs). -/
structure Definition where
  id : Nat
  span : DataSpan
  name : String
  deriving Repr, DecidableEq

/-- `front::data::Type` (data.rs). -/
inductive Ty where
  | void
  | query (t : Ty)
  | number
  | set (t : Ty)
  | identifier
  | location
  | position
  | range
  | string
  | definition
  deriving Repr, DecidableEq

/-- `Type::is_query` (data.rs). -/
def Ty.isQuery : Ty → Bool
  | .query _ => true
  | _ => false

/-- `Type::is_location` (data.rs): recurses through `Query`/`Set` wrappers. -/
def Ty.isLocation : Ty → Bool
  | .location => true
  | .position => true
  | .range => true
  | .query t => t.isLocation
  | .set t => t.isLocation
  | _ => false

/-- `Type::unquery` (data.rs): strips any number of `Query` wrappers. -/
def Ty.unquery : Ty → Ty
  | .query t => t.unquery
  | t => t

/-- The string produced by Rust's `{:?}` (derived `Debug`) on `Type`,
used verbatim inside `TypeError` messages. -/
def Ty.debugStr : Ty → String
  | .void => "Void"
  | .query t => "Query(" ++ t.debugStr ++ ")"
  | .number => "Number"
  | .set t => "Set(" ++ t.debugStr ++ ")"
  | .identifier => "Identifier"
  | .location => "Location"
  | .position => "Position"
  | .range => "Range"
  | .string => "String"
  | .definition => "Definition"

/-- `back::Error` (back/mod.rs). -/
inductive BackError where
  | notImplemented (name : String)
  | back (msg : String)
  deriving Repr, DecidableEq

/-- `front::Error`. The full enum does not appear in the snapshot of
`front/mod.rs`, but its variants are fixed by their construction sites:
`TypeError` and `EmptySet` (front/function.rs, front/query.rs),
`VarNotFound` and `NumericVarNotFound` (env/repl.rs, front/mod.rs), plus
wrapped collaborator failures (spec §7 taxonomy). -/
inductive Error where
  | varNotFound (name : String)
  | numericVarNotFound (idx : Nat) (bound : Nat)
  | typeError (msg : String)
  | emptySet
  | backendError (e : BackError)
  | other (msg : String)
  deriving Repr, DecidableEq

/-- The internal tag of the three `'static dyn Function` implementations in
front/query.rs (`query::Pick`, `query::Idents`, `query::Definition`). -/
inductive QueryDef where
  | pick
  | idents
  | definition
  deriving Repr, DecidableEq

mutual

/-- `front::data::Value` (data.rs): `{ty, kind}`. -/
inductive Value where
  | mk (ty : Ty) (kind : ValueKind)

/-- `front::data::ValueKind` (data.rs). -/
inductive ValueKind where
  | void
  | number (n : Nat)
  | set (vs : ValueList)
  | position (p : Position)
  | range (r : Range)
  | query (q : Query)
  | identifier (id : Identifier)
  | string (s : String)
  | definition (d : Definition)

/-- A `Vec<Value>`, spelled out so the mutual recursion stays structural. -/
inductive ValueList where
  | nil
  | cons (v : Value) (vs : ValueList)

/-- `front::query::Query` (query.rs): `Ready(Value)` or a deferred call
node `Function(Fun)` with `Fun = {def, ty, lhs, args}`. -/
inductive Query where
  | ready (v : Value)
  | function (d : QueryDef) (ty : Ty) (lhs : Query) (args : ValueList)

end

/-- Field accessor for `Value.ty`. -/
def Value.ty : Value → Ty
  | .mk t _ => t

/-- Field accessor for `Value.kind`. -/
def Value.kind : Value → ValueKind
  | .mk _ k => k

/-- `Value::void` (data.rs). -/
def Value.void : Value := .mk .void .void

/-- `Value::number` (data.rs). -/
def Value.number (n : Nat) : Value := .mk .number (.number n)

/-- `Value::string` (data.rs). -/
def Value.stringVal (s : String) : Value := .mk .string (.string s)

/-- `impl From<Value> for Query` (data.rs): a `Query`-kinded value yields its
inner query, anything else becomes `Query::ready`. -/
def Value.toQuery : Value → Query
  | .mk _ (.query q) => q
  | v => .ready v

/-- `ValueKind::is_void` (data.rs): true for `Void` or an empty `Set`. -/
def ValueKind.isVoid : ValueKind → Bool
  | .void => true
  | .set .nil => true
  | _ => false

/-- Length of a `ValueList`. -/
def ValueList.length : ValueList → Nat
  | .nil => 0
  | .cons _ vs => vs.length + 1

/-- `ValueList` from a plain list. -/
def ValueList.ofList : List Value → ValueList
  | [] => .nil
  | v :: vs => .cons v (ValueList.ofList vs)

/-- `back::Backend` (back/mod.rs): the three backend capabilities. -/
structure Backend where
  identAt : Position → Except BackError (Option Identifier)
  identsIn : Range → Except BackError (List Identifier)
  definitionOf : Identifier → Except BackError Definition

/-- Outcome of running an evaluation path of the program: a returned value,
a returned error, or a Rust panic. -/
inductive Res where
  | ok (v : Value)
  | err (e : Error)
  | panic
  deriving Inhabited

/-- Wrap a list of backend identifiers as the set value built by
`query::Idents::eval` (query.rs): each identifier becomes an
`Identifier`-typed value and the set is tagged with the node's `f.ty`. -/
def identsToSet (ids : List Identifier) (ty : Ty) : Value :=
  .mk ty (.set (ValueList.ofList (ids.map fun i => .mk .identifier (.identifier i))))

/-- `Query::eval(backend)` (query.rs), instrumented with the number of
backend calls made. `Ready` returns a clone of its value with zero calls.
`Function` first forces `lhs`, then runs the node's implementation:
`Pick` indexes `s[0]` (a panic on an empty set), `Idents` dispatches on the
forced value (`ident_at` for a position, `idents_in` for a range,
`unimplemented!()` for a set), `Definition` calls `definition` on an
identifier (`unimplemented!()` for a set). -/
def Query.eval : Query → Backend → Res × Nat
  | .ready v, _ => (.ok v, 0)
  | .function d ty lhs _args, back =>
    match lhs.eval back with
    | (.ok v, n) =>
      match d with
      | .pick =>
        match v.kind with
        | .set (.cons w _) => (.ok w, n)
        | .set .nil => (.panic, n)
        | _ =>
          (.err (.typeError
            ("Unexpected runtime type, expected: set, found: " ++ v.ty.debugStr)), n)
      | .idents =>
        match v.kind with
        | .position p =>
          match back.identAt p with
          | .ok (some i) => (.ok (identsToSet [i] ty), n + 1)
          | .ok none => (.ok (identsToSet [] ty), n + 1)
          | .error e => (.err (.backendError e), n + 1)
        | .range r =>
          match back.identsIn r with
          | .ok ids => (.ok (identsToSet ids ty), n + 1)
          | .error e => (.err (.backendError e), n + 1)
        | .set _ => (.panic, n)
        | _ =>
          (.err (.typeError
            ("Unexpected runtime type, expected: location, found: " ++ v.ty.debugStr)), n)
      | .definition =>
        match v.kind with
        | .identifier i =>
          match back.definitionOf i with
          | .ok dfn => (.ok (.mk .definition (.definition dfn)), n + 1)
          | .error e => (.err (.backendError e), n + 1)
        | .set _ => (.panic, n)
        | _ =>
          (.err (.typeError
            ("Unexpected runtime type, expected: identifier, found: " ++ v.ty.debugStr)), n)
    | other => other

/-- `query::Pick::new(lhs, ty)` (query.rs). -/
def pickNew (lhs : Query) (ty : Ty) : Query := .function .pick ty lhs .nil

/-- The value-level core of `function::Pick::eval` (function.rs, lines
136-150): given the already-interpreted left-hand value, a `Query`-kinded
value is wrapped in a deferred `query::Pick` node whose element type is
`lhs.ty.unquery().expect_set_inner()` (a panic when that type is not a
set); a materialized empty set is the `EmptySet` error; a materialized
non-empty set yields its first element; anything else is a `TypeError`. -/
def Pick.evalOnValue (lhs : Value) : Res :=
  match lhs.kind with
  | .query _ =>
    match lhs.ty.unquery with
    | .set inner => .ok (.mk (.query inner) (.query (pickNew lhs.toQuery inner)))
    | _ => .panic
  | .set .nil => .err .emptySet
  | .set (.cons v _) => .ok v
  | _ => .err (.typeError ("Expected set, found " ++ lhs.ty.debugStr))

/-- `file_system::Error` (file_system/mod.rs). -/
inductive FsError where
  | badLocation (msg : String)
  | internalError (msg : String)
  | ioError (msg : String)
  | otherFs (msg : String)
  deriving Repr, DecidableEq

/-- The environment services consumed by `Show` implementations
(data.rs): `FileSystem::show_path` rendered to a string, and
`with_file(path, |file| file.lines.get(line))`. -/
structure ShowEnv where
  showPath : Path → Except FsError String
  fileLine : Path → Nat → Except FsError (Option String)

/-- Decimal rendering of a `usize`, as Rust's `{}` does. -/
def natStr (n : Nat) : String := toString n

/-- A run of `n` spaces, as `"{:width$}"` padding of `""` produces. -/
def spaces (n : Nat) : String := String.mk (List.replicate n ' ')

/-- `impl Show for Position` (data.rs). -/
def Position.showStr (p : Position) (env : ShowEnv) : Except FsError String := do
  let path ← env.showPath p.file
  let text ← env.fileLine p.file p.line
  let text := text.getD "<error - line out of range>"
  let offset := (natStr (p.line + 1)).length + 3
  pure (" --> " ++ path ++ ":" ++ natStr (p.line + 1) ++ ":" ++ natStr (p.column + 1)
    ++ "\n" ++ natStr (p.line + 1) ++ " | " ++ text ++ "\n"
    ++ spaces (offset + p.column) ++ "^")

/-- `impl Show for Span` (data.rs). -/
def DataSpan.showStr (s : DataSpan) (env : ShowEnv) : Except FsError String := do
  let path ← env.showPath s.file
  if s.startLine = s.endLine then
    let text ← env.fileLine s.file s.startLine
    let text := text.getD "<error - line out of range>"
    let offset := (natStr (s.startLine + 1)).length + 3
    pure (" --> " ++ path ++ ":" ++ natStr (s.startLine + 1) ++ ":"
      ++ natStr (s.startColumn + 1) ++ "->" ++ natStr (s.endColumn + 1) ++ "\n"
      ++ natStr (s.startLine + 1) ++ " | " ++ text ++ "\n"
      ++ spaces (offset + s.startColumn)
      ++ String.mk (List.replicate (s.endColumn - s.startColumn) '^'))
  else
    pure (" --> " ++ path ++ ":" ++ natStr (s.startLine + 1) ++ ":"
      ++ natStr (s.startColumn + 1) ++ "->" ++ natStr (s.endLine + 1) ++ ":"
      ++ natStr (s.endColumn + 1) ++ "\n")

/-- `impl Show for Range` (data.rs). -/
def Range.showStr (r : Range) (env : ShowEnv) : Except FsError String :=
  match r with
  | .file path => env.showPath path
  | .multiFile paths =>
    if paths.length < 5 then do
      let shown ← paths.mapM env.showPath
      pure ("[" ++ String.intercalate ", " shown ++ "]")
    else
      pure ("[" ++ natStr paths.length ++ " files]")
  | .line path ln => do
    let p ← env.showPath path
    let text ← env.fileLine path ln
    let text := text.getD "<error - line out of range>"
    pure (" --> " ++ p ++ ":" ++ natStr (ln + 1) ++ "\n"
      ++ natStr (ln + 1) ++ " | " ++ text)
  | .span s => s.showStr env

mutual

/-- `impl Show for ValueKind` (data.rs): `Void` prints `()`; a set of fewer
than 5 elements prints a bracketed comma-separated list, otherwise
`[...]*N`; strings are quoted, identifiers back-quoted, queries print
`<Query>`; positions, ranges and definitions delegate to their `Show`
impls. -/
def ValueKind.showStr (k : ValueKind) (env : ShowEnv) : Except FsError String :=
  match k with
  | .void => pure "()"
  | .number n => pure (natStr n)
  | .set vs =>
    if vs.length < 5 then do
      let parts ← ValueList.showParts vs env
      pure ("[" ++ String.intercalate ", " parts ++ "]")
    else
      pure ("[...]*" ++ natStr vs.length)
  | .position p => p.showStr env
  | .range r => r.showStr env
  | .string s => pure ("\"" ++ s ++ "\"")
  | .identifier i => pure ("`" ++ i.name ++ "`")
  | .query _ => pure "<Query>"
  | .definition d => do
    let sp ← d.span.showStr env
    pure ("`" ++ d.name ++ "` at " ++ sp)

/-- `impl Show for Value` (data.rs) delegates to the kind. -/
def Value.showStr (v : Value) (env : ShowEnv) : Except FsError String :=
  match v with
  | .mk _ k => k.showStr env

/-- The elementwise rendering used by the set branch of
`ValueKind::show`. -/
def ValueList.showParts (vs : ValueList) (env : ShowEnv) :
    Except FsError (List String) :=
  match vs with
  | .nil => pure []
  | .cons v rest => do
    let s ← v.showStr env
    let others ← ValueList.showParts rest env
    pure (s :: others)

end

/-! ## Function framework: arity and dispatch (front/function.rs) -/

/-- `front::function::Arity` (function.rs). -/
inductive Arity where
  | none
  | exactly (n : Nat)
  | atLeast (n : Nat)
  deriving Repr, DecidableEq

/-- `impl fmt::Display for Arity` (function.rs). -/
def Arity.displayStr : Arity → String
  | .none => "0"
  | .exactly n => natStr n
  | .atLeast n => natStr n ++ " or more"

/-! ## AST (parse/ast.rs), without the opaque `Context` payloads -/

/-- `ast::MetaVarKind`. -/
inductive MetaVarKind where
  | dollar
  | numeric (n : Int)
  | named (name : String)
  deriving Repr, DecidableEq

/-- `ast::Location` (parse/ast.rs): the parsed location literal. -/
structure AstLocation where
  file : Option String
  line : Option Nat
  column : Option Nat
  deriving Repr, DecidableEq

/-- `ast::ExprKind` / `ast::Expr` (contexts dropped). -/
inductive Expr where
  | metaVar (k : MetaVarKind)
  | void
  | apply (ident : String) (lhs : Expr) (args : List Expr)
  | location (loc : AstLocation)
  | projection (ident : String) (lhs : Expr)
  deriving Repr

/-- `ast::MetaKind`. -/
inductive MetaKind where
  | exit
  | help
  deriving Repr, DecidableEq

/-- `ast::StatementKind` / `ast::Statement` (contexts dropped). -/
inductive Statement where
  | expr (e : Expr)
  | applyShorthand (ident : String) (lhs : Expr) (args : List Expr)
  | meta (mk : MetaKind)
  deriving Repr

/-- `Arity::check(args)` (function.rs): `None` admits zero arguments,
`Exactly(n)` exactly `n`, `AtLeast(n)` at least `n`; anything else is the
`TypeError` "Incorrect arguments, expected: {arity}, found {len}". -/
def Arity.check (a : Arity) (args : List Expr) : Except Error Unit :=
  match a, args.length with
  | .none, 0 => .ok ()
  | .exactly n, l => if l = n then .ok () else
      .error (.typeError ("Incorrect arguments, expected: " ++ a.displayStr
        ++ ", found " ++ natStr l))
  | .atLeast n, l => if n ≤ l then .ok () else
      .error (.typeError ("Incorrect arguments, expected: " ++ a.displayStr
        ++ ", found " ++ natStr l))
  | _, l =>
      .error (.typeError ("Incorrect arguments, expected: " ++ a.displayStr
        ++ ", found " ++ natStr l))

/-- The `NAME`/`ARITY` header of one named function (function.rs). -/
structure FunctionDef where
  name : String
  arity : Arity
  deriving Repr, DecidableEq

/-- `function::Show` header (function.rs): `NAME = "show"`, `ARITY = None`. -/
def showDef : FunctionDef := ⟨"show", .none⟩

/-- `function::Select` header: `NAME = "select"`, `ARITY = None`. -/
def selectDef : FunctionDef := ⟨"select", .none⟩

/-- `function::Pick` header: `NAME = "pick"`, `ARITY = None`. -/
def pickDef : FunctionDef := ⟨"pick", .none⟩

/-- `function::Idents` header: `NAME = "idents"`, `ARITY = None`. -/
def identsDef : FunctionDef := ⟨"idents", .none⟩

/-- `function::Definition` header: `NAME = "def"`, `ARITY = None`. -/
def definitionDef : FunctionDef := ⟨"def", .none⟩

/-- The flat dispatch table keyed by identifier name (spec §4.3); an
unknown name is a hard error. The five entries are the `NAME` constants of
front/function.rs. -/
def functionTable (name : String) : Option FunctionDef :=
  if name = "show" then some showDef
  else if name = "select" then some selectDef
  else if name = "pick" then some pickDef
  else if name = "idents" then some identsDef
  else if name = "def" then some definitionDef
  else none

/-- Trace of one function application: its final outcome, whether the type
rule and the eval rule were invoked, and how many backend calls the eval
rule made. -/
structure DispatchTrace where
  result : Res
  tyInvoked : Bool
  evalInvoked : Bool
  backendCalls : Nat
  deriving Inhabited

/-- Modelled from the spec: the application-dispatch arm of
`Interpreter::interpret_expr` (front/mod.rs) is not present in the source
snapshot (the file's `interpret_expr` predates function application), so
this follows §4.3/§8 of the spec: `ARITY` is "checked against the actual
argument count before type-checking", the type rule runs against the
unevaluated AST, and the eval rule runs "only after the type rule
succeeds". The type and eval rules of the dispatched function are passed
as thunks; the eval thunk reports its backend-call count. -/
def interpretApply (fd : FunctionDef) (args : List Expr)
    (tyRule : Unit → Except Error Ty) (evalRule : Unit → Res × Nat) :
    DispatchTrace :=
  match fd.arity.check args with
  | .error e => ⟨.err e, false, false, 0⟩
  | .ok () =>
    match tyRule () with
    | .error e => ⟨.err e, true, false, 0⟩
    | .ok _ =>
      let r := evalRule ()
      ⟨r.1, true, true, r.2⟩

/-! ## Location literal mini-grammar (parse/parser.rs, `LocationParser`) -/

/-- `parse::Error` (parse/mod.rs). -/
inductive ParseError where
  | lexing (msg : String) (offset : Nat)
  | parsing (msg : String)
  | emptyInput
  | otherParse (msg : String)
  deriving Repr, DecidableEq

/-- Rust `char::is_whitespace` (the Unicode `White_Space` property,
written out as its 25 code points); used by the lexer's skip path and by
`str::trim`. -/
def rustIsWhitespace (c : Char) : Bool :=
  [0x09, 0x0A, 0x0B, 0x0C, 0x0D, 0x20, 0x85, 0xA0, 0x1680,
   0x2028, 0x2029, 0x202F, 0x205F, 0x3000].contains c.toNat
  || (0x2000 ≤ c.toNat && c.toNat ≤ 0x200A)

/-- Rust `str::trim`: strip `char::is_whitespace` characters from both
ends. -/
def trimChars (cs : List Char) : List Char :=
  ((cs.dropWhile rustIsWhitespace).reverse.dropWhile rustIsWhitespace).reverse

/-- Rust `str::split(':')`: always at least one (possibly empty)
segment. -/
def splitColon : List Char → List (List Char)
  | [] => [[]]
  | c :: rest =>
    if c = ':' then [] :: splitColon rest
    else
      match splitColon rest with
      | s :: ss => (c :: s) :: ss
      | [] => [[c]]

/-- Rust's `str::parse::<usize>()`: an optional leading `+`, then one or
more ASCII digits, rejecting overflow past `2 ^ 64`. -/
def parseUsize (cs : List Char) : Option Nat :=
  let t := match cs with
    | '+' :: rest => rest
    | _ => cs
  if t.isEmpty then none
  else if t.all Char.isDigit then
    let n := t.foldl (fun acc c => acc * 10 + (c.toNat - 48)) 0
    if n < 2 ^ 64 then some n else none
  else none

/-- `LocationParser::map_parse` (parser.rs): an absent segment stays
absent, a present one must parse as a number. -/
def mapParse (s : Option (List Char)) : Except ParseError (Option Nat) :=
  match s with
  | some s =>
    match parseUsize s with
    | some n => .ok (some n)
    | none =>
      .error (.parsing ("Invalid location, expected number, found `" ++ String.mk s ++ "`"))
  | none => .ok none

/-- The `match first` at the end of `LocationParser::location`: a first
segment that parses as an unsigned integer is a line number (and then a
present third segment is an error), otherwise it is a filename. -/
def locationParseTail (first second third : Option (List Char)) :
    Except ParseError AstLocation :=
  match first with
  | none => .ok ⟨none, none, none⟩
  | some s =>
    match parseUsize s with
    | some row =>
      match third with
      | some t => .error (.parsing ("Invalid location, unexpected `" ++ String.mk t ++ "`"))
      | none => do
        let second ← mapParse second
        .ok ⟨none, some row, second⟩
    | none => do
      let second ← mapParse second
      let third ← mapParse third
      .ok ⟨some (String.mk s), second, third⟩

/-- `LocationParser::location` (parser.rs): the input must start with `:`;
the rest is split on `:`; the first three segments are read (trimmed); a
*fourth* segment, if present and non-empty, is an error (later segments
are never examined). -/
def locationParse (input : String) : Except ParseError AstLocation :=
  match input.toList with
  | ':' :: rest =>
    let splits := splitColon rest
    let first := (splits.get? 0).map trimChars
    let second := (splits.get? 1).map trimChars
    let third := (splits.get? 2).map trimChars
    match splits.get? 3 with
    | some s =>
      if ¬ s.isEmpty then
        .error (.parsing ("Invalid location, unexpected `" ++ String.mk s ++ "`"))
      else
        locationParseTail first second third
    | none => locationParseTail first second third
  | _ =>
    .error (.parsing ("Invalid location, expected `:`, found `" ++ input ++ "`"))

/-! ## Location resolution (file_system/mod.rs, `resolve_location`) -/

/-- `front::Locator`: the resolved result of a location literal. -/
inductive Locator where
  | position (p : Position)
  | range (r : Range)
  deriving Repr, DecidableEq

/-- Whether a resolution produced a `Position`. -/
def resolvedToPosition : Except FsError Locator → Bool
  | .ok (.position _) => true
  | _ => false

/-- `resolve_location(loc, fs)` (file_system/mod.rs, lines 98-128),
parametrized by the file system's `find`. An unspecified file is an error;
zero matches is an error; several matches with a line or column are an
error, several without are `Range::MultiFile`; for one match, a *positive*
line with a *positive* column yields a `Position` (both decremented), a
positive line otherwise yields `Range::Line`, and anything else
`Range::File`. -/
def resolveLocation (find : String → Except FsError (List Path))
    (loc : AstLocation) : Except FsError Locator :=
  match loc.file with
  | none => .error (.badLocation "unspecified location")
  | some f =>
    match find f with
    | .error e => .error e
    | .ok paths =>
      match paths with
      | [] => .error (.badLocation ("no files match `" ++ f ++ "`"))
      | [path] =>
        match loc.line with
        | some l =>
          if l > 0 then
            match loc.column with
            | some c =>
              if c > 0 then .ok (.position ⟨path, l - 1, c - 1⟩)
              else .ok (.range (.line path (l - 1)))
            | none => .ok (.range (.line path (l - 1)))
          else .ok (.range (.file path))
        | none => .ok (.range (.file path))
      | _ :: _ :: _ =>
        if loc.line.isSome || loc.column.isSome then
          .error (.badLocation "line or column specified for multiple a multi-file range")
        else
          .ok (.range (.multiFile paths))

/-! ## History and variable lookup (env/repl.rs, front/mod.rs) -/

/-- Rust's `as usize` on an `isize`: two's-complement wrap modulo
`2 ^ 64`. -/
def asUsize (i : Int) : Nat := (i % (2 ^ 64 : Int)).toNat

/-- `Repl::lookup_numeric_var` (repl.rs, lines 114-133) over the
`prev_results` history (one `Option<Value>` per past statement): a
negative index is first shifted by the history length; an index that is
still negative, or not below the length after the `as usize` cast, fails
with `NumericVarNotFound(id as usize, len.saturating_sub(1))`; an in-range
index holding `None` fails with `VarNotFound` named after the adjusted
index; otherwise the stored value is returned. -/
def lookupNumericVar (prev : List (Option Value)) (id : Int) :
    Except Error Value :=
  let adjusted : Int := if id < 0 then (prev.length : Int) + id else id
  if adjusted < 0 ∨ prev.length ≤ asUsize adjusted then
    .error (.numericVarNotFound (asUsize adjusted) (prev.length - 1))
  else
    match prev.getD (asUsize adjusted) none with
    | some v => .ok v
    | none => .error (.varNotFound (toString adjusted))

/-- `Interpreter::lookup_var` (front/mod.rs, lines 58-74), with the
environment's numeric lookup instantiated to the REPL history: `Dollar`
is the numeric lookup at `-1`, `Numeric(n)` the numeric lookup at `n`;
`Named` consults the symbol table first and falls back to the
environment, caching a successful fallback. Returns the result together
with the (possibly extended) symbol table. -/
def lookupVar (prev : List (Option Value))
    (envNamed : String → Except Error Value)
    (symbols : List (String × Value)) (kind : MetaVarKind) :
    Except Error Value × List (String × Value) :=
  match kind with
  | .dollar => (lookupNumericVar prev (-1), symbols)
  | .numeric n => (lookupNumericVar prev n, symbols)
  | .named id =>
    match symbols.find? (fun p => p.1 = id) with
    | some p => (.ok p.2, symbols)
    | none =>
      match envNamed id with
      | .ok v => (.ok v, symbols ++ [(id, v)])
      | .error e => (.error e, symbols)

/-! ## REPL driver (env/repl.rs, `Repl::run` / `Repl::interpret`) -/

/-- One line emitted by the driver at a statement boundary (repl.rs): the
caret line under a lexing error, a plain message, or the
`"Error: {e}"` print of an interpreter error. -/
inductive ReplOut where
  | caretLine (column : Nat)
  | message (msg : String)
  | interpErr (e : Error)
  deriving Repr

/-- Outcome of `Repl::interpret` on one statement: a value, a front-end
error, or a process exit raised by the `exit` meta-command. -/
inductive InterpOutcome where
  | ok (v : Value)
  | err (e : Error)
  | exited

/-- Result of one REPL iteration: the new history, the lines printed by
the driver, and whether the loop keeps running. -/
structure StepResult where
  history : List (Option Value)
  printed : List ReplOut
  running : Bool

/-- One iteration of `Repl::run` (repl.rs, lines 30-60) combined with
`Repl::interpret` (lines 62-73): a parsed statement is interpreted and its
value (or `None` on error, with an `Error:` print) appended to history;
empty input does nothing; a lexing error prints a caret at the prompt-
shifted offset plus the message and appends `None`; a parsing error prints
the message and appends `None`; the dead `parse::Error::Other` variant
prints without recording; a process exit stops the loop. -/
def replStep (prev : List (Option Value)) (promptLen : Nat)
    (parseRes : Except ParseError Statement)
    (interp : Statement → InterpOutcome) : StepResult :=
  match parseRes with
  | .ok stmt =>
    match interp stmt with
    | .ok v => ⟨prev ++ [some v], [], true⟩
    | .err e => ⟨prev ++ [none], [.interpErr e], true⟩
    | .exited => ⟨prev, [], false⟩
  | .error .emptyInput => ⟨prev, [], true⟩
  | .error (.lexing msg offset) =>
    ⟨prev ++ [none], [.caretLine (offset + promptLen), .message msg], true⟩
  | .error (.parsing msg) => ⟨prev ++ [none], [.message msg], true⟩
  | .error (.otherParse msg) =>
    ⟨prev, [.message ("Error parsing input: " ++ msg)], true⟩

/-- Outcome of `Repl::exec_meta` (repl.rs, lines 84-102). -/
inductive ExecMetaOut where
  | exited
  | printed (lines : List String)
  deriving Repr

/-- `Repl::exec_meta` (repl.rs): `^exit` calls `process::exit(0)`; `^help`
prints the help text and returns normally. -/
def execMeta : MetaKind → ExecMetaOut
  | .exit => .exited
  | .help => .printed
      ["Clyde 0.1", "", "Meta-commands:",
       "  ^help     display this message", "  ^exit     exit Clyde", "",
       "Some common statements:", "  select    query the program",
       "  x =       variable assignment", "  show      print a value"]

/-! ## Lexer (parse/lexer.rs, parse/tokens.rs)

The lexer works on byte offsets into a UTF-8 string. The input is
embedded as a `List Char` and byte positions are tracked explicitly;
`dropBytes`/`takeBytes` model Rust string slicing, returning `none`
exactly where Rust would panic (an index beyond the end or not on a
character boundary). -/

/-- `tokens::SymbolKind`. -/
inductive SymbolKind where
  | caret
  | asterisk
  | dollar
  | semiColon
  | hash
  | eq
  | plusEq
  | arrowLeft
  | arrowRight
  deriving Repr, DecidableEq

/-- `tokens::Span`: byte offset into the logical input plus the exact
substring. -/
structure TokSpan where
  start : Nat
  text : List Char
  deriving Repr, DecidableEq

/-- `tokens::TokenKind`; a `Tree` holds its flat list of sibling tokens. -/
inductive TokenKind where
  | symbol (s : SymbolKind)
  | ident
  | number (n : Int)
  | rawTree
  | tree (toks : List (TokenKind × TokSpan))
  deriving Repr

/-- `tokens::Token` as its `(kind, span)` pair. -/
abbrev Token := TokenKind × TokSpan

/-- Total UTF-8 byte length of a character list (`str::len`). -/
def byteLen (cs : List Char) : Nat := (cs.map Char.utf8Size).sum

/-- Rust `&s[n..]`: `none` when `n` overruns the string or falls inside a
character (where Rust panics). -/
def dropBytes : List Char → Nat → Option (List Char)
  | cs, 0 => some cs
  | [], _ + 1 => none
  | c :: cs, n + 1 =>
    if c.utf8Size ≤ n + 1 then dropBytes cs (n + 1 - c.utf8Size) else none

/-- Rust `&s[..n]`: `none` when `n` overruns the string or falls inside a
character. -/
def takeBytes : List Char → Nat → Option (List Char)
  | _, 0 => some []
  | [], _ + 1 => none
  | c :: cs, n + 1 =>
    if c.utf8Size ≤ n + 1 then (takeBytes cs (n + 1 - c.utf8Size)).map (c :: ·)
    else none

/-- Rust `char::is_alphabetic`, restricted to ASCII letters. The full
Unicode `Alphabetic` table is not reproduced; no theorem below
distinguishes non-ASCII letters, and the characters they classify
(e.g. U+00A0) agree with Rust here. -/
def rustIsAlphabetic (c : Char) : Bool := c.isAlpha

/-- Rust `char::is_alphanumeric`, restricted likewise to ASCII. -/
def rustIsAlphanumeric (c : Char) : Bool := c.isAlphanum

/-- The offset-independent outcome of `Lexer::lex_tok`: a token kind with
its span text and byte length (every span starts at the current
position), a whitespace skip, or an error at a relative byte offset. -/
inductive TokCore where
  | tok (kind : TokenKind) (text : List Char) (len : Nat)
  | ws
  | err (msg : String) (rel : Nat)
  deriving Repr

/-- The `(`-scanning loop of `Lexer::lex_tok` (lexer.rs, lines 80-113):
walk forward balancing delimiters, accumulating the consumed text and its
byte length; running out of input is the unclosed-delimiters error at
`len - 1`, whose message spells out the outstanding `)` stack. -/
def rawScan : List Char → List Char → Nat → Nat → Except (String × Nat) (List Char × Nat)
  | [], _, len, depth =>
    .error ("Unexpected end of input (unclosed delimiters), expected `"
      ++ String.mk (List.replicate depth ')') ++ "`", len - 1)
  | c :: cs, acc, len, depth =>
    if c = '(' then rawScan cs (acc ++ [c]) (len + 1) (depth + 1)
    else if c = ')' then
      if depth = 1 then .ok (acc ++ [c], len + 1)
      else rawScan cs (acc ++ [c]) (len + 1) (depth - 1)
    else rawScan cs (acc ++ [c]) (len + c.utf8Size) depth

/-- The identifier loop of `Lexer::lex_tok` (lexer.rs, lines 115-129):
consume alphanumeric continuation characters, accumulating byte length. -/
def identScan : List Char → List Char → Nat → List Char × Nat
  | [], acc, len => (acc, len)
  | c :: cs, acc, len =>
    if rustIsAlphanumeric c then identScan cs (acc ++ [c]) (len + c.utf8Size)
    else (acc, len)

/-- `Lexer::lex_tok` (lexer.rs, lines 63-133) on the non-empty current
input `c :: rest`, with the offset-dependent span construction factored
out (every produced span starts at the current position). -/
def lexTokCore (c : Char) (rest : List Char) : TokCore :=
  if c = '^' then .tok (.symbol .caret) [c] 1
  else if c = '$' then .tok (.symbol .dollar) [c] 1
  else if c = '*' then .tok (.symbol .asterisk) [c] 1
  else if c = '=' then .tok (.symbol .eq) [c] 1
  else if c = '#' then .tok (.symbol .hash) [c] 1
  else if c = ';' then .tok (.symbol .semiColon) [c] 1
  else if c = '-' then
    match rest with
    | [] => .err "Unexpected end of input, expected `>`" 1
    | d :: _ =>
      if d = '>' then .tok (.symbol .arrowRight) ['-', '>'] 2
      else .err "Unexpected token" 1
  else if c = '(' then
    match rawScan rest ['('] 1 1 with
    | .ok (text, len) => .tok .rawTree text len
    | .error (msg, rel) => .err msg rel
  else if rustIsAlphabetic c then
    let scanned := identScan rest [c] c.utf8Size
    .tok .ident scanned.1 scanned.2
  else if rustIsWhitespace c then .ws
  else .err "Unexpected token" 0

/-- Result of `lex`: a token (always a `Tree` on success), a lexing error
with its absolute byte offset, or a Rust panic. -/
inductive LexResult where
  | ok (t : Token)
  | err (msg : String) (offset : Nat)
  | panic
  deriving Repr

/-- The tree construction at the end of `Lexer::lex_tree`: the span is
`input[..position]` starting at the logical offset. -/
def mkTreeTok (input : List Char) (offset position : Nat) (acc : List Token) :
    LexResult :=
  match takeBytes input position with
  | some text => .ok (.tree acc, ⟨offset, text⟩)
  | none => .panic

/-- The loop of `Lexer::lex_tree` (lexer.rs, lines 25-57): re-slice the
input at the current byte position (a panic off a character boundary),
stop at the end of input, dispatch one token: a `#` ends the tree without
being recorded, a `;` is recorded and ends the tree, whitespace advances
the position *by one byte* (the source's `self.position += 1`), and any
other token is recorded and advances by its byte length. The fuel is
always sufficient for the wrapper's choice. -/
def lexTreeAux (input : List Char) (offset : Nat) :
    Nat → Nat → List Token → LexResult
  | 0, _, _ => .panic
  | fuel + 1, position, acc =>
    match dropBytes input position with
    | none => .panic
    | some [] => mkTreeTok input offset position acc
    | some (c :: rest) =>
      match lexTokCore c rest with
      | .err msg rel => .err msg (offset + position + rel)
      | .ws => lexTreeAux input offset fuel (position + 1) acc
      | .tok kind text len =>
        match kind with
        | .symbol .hash => mkTreeTok input offset position acc
        | .symbol .semiColon =>
          mkTreeTok input offset (position + len)
            (acc ++ [(kind, ⟨offset + position, text⟩)])
        | _ =>
          lexTreeAux input offset fuel (position + len)
            (acc ++ [(kind, ⟨offset + position, text⟩)])

/-- `lexer::lex(input, offset)` (lexer.rs, lines 4-11). -/
def lex (input : List Char) (offset : Nat) : LexResult :=
  lexTreeAux input offset (byteLen input + 1) 0 []

/-- Shift one flat token's span start by `k`. -/
def shiftTok (k : Nat) (t : Token) : Token := (t.1, ⟨t.2.start + k, t.2.text⟩)

/-- Shift a lexing outcome by `k` bytes: span starts of the result tree
and of every token inside it, and error offsets, all move by `k`; kinds
and span texts are untouched. -/
def shiftResult (k : Nat) : LexResult → LexResult
  | .ok (.tree toks, sp) => .ok (.tree (toks.map (shiftTok k)), ⟨sp.start + k, sp.text⟩)
  | .ok t => .ok (shiftTok k t)
  | .err msg o => .err msg (o + k)
  | .panic => .panic

/-! ## Concrete fixtures used by the theorems below -/

/-- An empty set of identifiers, `Value {ty: Set(Identifier), kind: Set([])}`. -/
def emptySetVal : Value := .mk (.set .identifier) (.set .nil)

/-- A `Query`-typed value whose deferred computation is already the empty
set: `Value {ty: Query(Set(Identifier)), kind: Query(Ready(emptySetVal))}`. -/
def queryOfEmptySetVal : Value := .mk (.query (.set .identifier)) (.query (.ready emptySetVal))

/-- A one-element number set. -/
def singletonSetVal : Value := .mk (.set .number) (.set (.cons (Value.number 7) .nil))

/-- A mock `find` with one match for `"foo.rs"`, two for `"m.rs"`, none
for `"none.rs"`. -/
def findFixture (s : String) : Except FsError (List Path) :=
  if s = "foo.rs" then .ok [⟨1⟩]
  else if s = "m.rs" then .ok [⟨2⟩, ⟨3⟩]
  else if s = "none.rs" then .ok []
  else .error (.otherFs s)

/-- A parsed location with file `foo.rs`, line `0` and column `1`. -/
def loc0 : AstLocation := ⟨some "foo.rs", some 0, some 1⟩

/-- The three-entry history `[v0, v1, v2]` of the claims, holding the
numbers 0, 1, 2. -/
def h3 : List (Option Value) :=
  [some (Value.number 0), some (Value.number 1), some (Value.number 2)]

/-- A named-variable environment that always misses. -/
def envNamed0 (name : String) : Except Error Value := .error (.varNotFound name)

/-- A `ShowEnv` whose path and line lookups are inert; `Void` and set
rendering never consult it. -/
def env0 : ShowEnv := ⟨fun _ => .ok "", fun _ _ => .ok none⟩

/-- An interpreter stub that fails every statement with `EmptySet`. -/
def interpErr0 : Statement → InterpOutcome := fun _ => .err .emptySet

end Clyde

open Clyde

/-! ## The claims -/

/-- C1: evaluating `Query::Ready(v)` with any backend returns `Ok` of the
wrapped value and makes zero backend calls; because `Query.eval` is a
pure function of the query and the backend, a second evaluation of the
same `Ready(v)` returns the same (hence equal) value again. -/
theorem ready_eval_returns_value_without_backend :
    ∀ (v : Value) (b : Backend), Query.eval (.ready v) b = (.ok v, 0) :=
  fun _ _ => rfl

/-- C2: for every named function of the dispatch table (all five have
`ARITY = None`), applying it to one argument fails the arity check before
type-checking, yielding the `TypeError` "Incorrect arguments, expected:
0, found 1"; neither the type rule nor the eval rule is invoked and no
backend call is made. -/
theorem arity_checked_before_eval :
    ∀ (name : String) (fd : FunctionDef) (args : List Expr)
      (tyRule : Unit → Except Error Ty) (evalRule : Unit → Res × Nat),
      functionTable name = some fd → args.length = 1 →
      interpretApply fd args tyRule evalRule =
        ⟨.err (.typeError "Incorrect arguments, expected: 0, found 1"),
         false, false, 0⟩ := by
  intro name fd args tyRule evalRule hname hlen
  have harity : fd.arity = .none := by
    unfold functionTable at hname
    split_ifs at hname <;>
      exact (Option.some_inj.mp hname) ▸ rfl
  unfold interpretApply Arity.check
  rw [harity, hlen]
  rfl

/-- Witness for C2: applying the zero-arity `show` to a single `Void`
argument is rejected with the arity `TypeError` and the eval rule is
never invoked, even though the supplied eval thunk would report five
backend calls. -/
theorem arity_checked_before_eval_witness :
    interpretApply showDef [Expr.void] (fun _ => .ok .void)
        (fun _ => (.ok Value.void, 5)) =
      ⟨.err (.typeError "Incorrect arguments, expected: 0, found 1"),
       false, false, 0⟩ :=
  arity_checked_before_eval "show" showDef [Expr.void] _ _ rfl rfl

/-- C3: the two materialized cases of `pick` behave as the claim states
(empty set is the distinct `EmptySet` error, non-empty set returns its
first element, and a `Query` left-hand side is wrapped preserving the
`Query` wrapper on the element type) — but when the wrapped query is
forced and only then materializes an empty set, `query::Pick::eval`
indexes `s[0]` of the empty vector and panics instead of returning
`EmptySet`, so the claim's "never panics" fails on the code. -/
theorem pick_deferred_empty_set_panics :
    ∀ b : Backend,
      Pick.evalOnValue emptySetVal = .err .emptySet
      ∧ Pick.evalOnValue singletonSetVal = .ok (Value.number 7)
      ∧ Pick.evalOnValue queryOfEmptySetVal =
          .ok (.mk (.query .identifier)
            (.query (pickNew (.ready emptySetVal) .identifier)))
      ∧ Query.eval (pickNew (.ready emptySetVal) .identifier) b = (.panic, 0) :=
  fun _ => ⟨rfl, rfl, rfl, rfl⟩

/-- C4: the decision points of `LocationParser::location` evaluated on the
claim's inputs: a trailing colon after the 1- and 2-segment forms `":42"`
and `":42:3"` is a parse error rather than being tolerated; `":"` alone
parses to a `Some("")` filename rather than a fully unspecified location;
a non-empty 5th segment after an empty 4th (`":src/bar.rs:1:2::junk"`) is
silently accepted rather than rejected; only the non-empty 4th segment
(`":f:1:2:x"`) and the 3-segment trailing colon behave as claimed. -/
theorem location_trailing_colon_and_fifth_segment :
    locationParse ":42:" =
      .error (.parsing "Invalid location, expected number, found ``")
    ∧ locationParse ":42:3:" =
      .error (.parsing "Invalid location, unexpected ``")
    ∧ locationParse ":foo.rs:" =
      .error (.parsing "Invalid location, expected number, found ``")
    ∧ locationParse ":" = .ok ⟨some "", none, none⟩
    ∧ locationParse ":src/bar.rs:1:2::junk" = .ok ⟨some "src/bar.rs", some 1, some 2⟩
    ∧ locationParse ":src/bar.rs:1:2:" = .ok ⟨some "src/bar.rs", some 1, some 2⟩
    ∧ locationParse ":f:1:2:x" = .error (.parsing "Invalid location, unexpected `x`") := by
  refine ⟨?_, ?_, ?_, ?_, ?_, ?_, ?_⟩ <;> rfl

/-- Helper: the `as usize` wrap is the identity on the in-range values. -/
theorem asUsize_eq_of_lt {i : Int} (h0 : 0 ≤ i) (h : i < 2 ^ 64) :
    asUsize i = i.toNat := by
  unfold asUsize
  rw [Int.emod_eq_of_lt h0 h]

/-- C5 counterexample: a location whose file, line *and* column are all
specified, with a unique matching file, resolves to `Range::File` rather
than a `Position` when the specified line is `0` — the `l > 0` guard in
`resolve_location` treats a zero line as unspecified, contrary to the
claim's unconditional "filename with line and column both specified
resolves to a Position". -/
theorem resolve_location_zero_line_not_position :
    resolveLocation findFixture loc0 = .ok (.range (.file ⟨1⟩))
    ∧ resolvedToPosition (resolveLocation findFixture loc0) = false := ⟨rfl, rfl⟩

/-- C5 (amended): `resolve_location` behaves as claimed with the guards
made explicit — a unique match with *positive* line and *positive* column
yields a `Position` (both decremented); a positive line with no column
(or a zero column) yields `Range::Line`; no line or a zero line yields
`Range::File`; several matches yield `Range::MultiFile` exactly when
neither line nor column is present and a hard error otherwise; zero
matches are an error. -/
theorem resolve_location_cases
    (find : String → Except FsError (List Path)) (f : String) (l c : Nat)
    (p a q : Path) (rest : List Path) (lo co : Option Nat) :
    (find f = .ok [] → resolveLocation find ⟨some f, lo, co⟩ =
      .error (.badLocation ("no files match `" ++ f ++ "`"))) ∧
    (find f = .ok (a :: q :: rest) → (lo.isSome || co.isSome) = true →
      resolveLocation find ⟨some f, lo, co⟩ =
        .error (.badLocation "line or column specified for multiple a multi-file range")) ∧
    (find f = .ok (a :: q :: rest) →
      resolveLocation find ⟨some f, none, none⟩ =
        .ok (.range (.multiFile (a :: q :: rest)))) ∧
    (find f = .ok [p] → 1 ≤ l → 1 ≤ c →
      resolveLocation find ⟨some f, some l, some c⟩ =
        .ok (.position ⟨p, l - 1, c - 1⟩)) ∧
    (find f = .ok [p] → 1 ≤ l →
      resolveLocation find ⟨some f, some l, none⟩ = .ok (.range (.line p (l - 1)))) ∧
    (find f = .ok [p] → 1 ≤ l →
      resolveLocation find ⟨some f, some l, some 0⟩ = .ok (.range (.line p (l - 1)))) ∧
    (find f = .ok [p] →
      resolveLocation find ⟨some f, none, co⟩ = .ok (.range (.file p))) ∧
    (find f = .ok [p] →
      resolveLocation find ⟨some f, some 0, co⟩ = .ok (.range (.file p))) := by
  refine ⟨fun h => ?_, fun h hsome => ?_, fun h => ?_, fun h hl hc => ?_,
    fun h hl => ?_, fun h hl => ?_, fun h => ?_, fun h => ?_⟩
  · simp [resolveLocation, h]
  · simp [resolveLocation, h, hsome]
  · simp [resolveLocation, h]
  · have hl' : 0 < l := hl
    have hc' : 0 < c := hc
    simp [resolveLocation, h, hl', hc']
  · have hl' : 0 < l := hl
    simp [resolveLocation, h, hl']
  · have hl' : 0 < l := hl
    simp [resolveLocation, h, hl']
  · simp [resolveLocation, h]
  · simp [resolveLocation, h]

/-- Witness for C5 (amended): resolving `foo.rs:4:42` against a file
system with a unique match yields the 0-indexed position `(3, 41)`. -/
theorem resolve_location_cases_witness :
    resolveLocation findFixture ⟨some "foo.rs", some 4, some 42⟩ =
      .ok (.position ⟨⟨1⟩, 3, 41⟩) :=
  (resolve_location_cases findFixture "foo.rs" 4 42 ⟨1⟩ ⟨1⟩ ⟨1⟩ [] none none).2.2.2.1
    rfl (by decide) (by decide)

/-- C6 counterexample: with the three-entry history `[v0, v1, v2]`,
looking up index `-4` fails reporting the valid upper bound `2`, but the
reported index is `18446744073709551615` — the adjusted index `3 + (-4) =
-1` wrapped by the `as usize` cast — not the attempted index `-4` (which
is no natural number, and would wrap to `18446744073709551612`). -/
theorem lookup_minus_four_reports_wrapped_index :
    lookupNumericVar h3 (-4) =
      .error (.numericVarNotFound 18446744073709551615 2)
    ∧ (18446744073709551615 : Nat) ≠ 18446744073709551612
    ∧ (18446744073709551615 : Nat) ≠ 4 := ⟨rfl, by decide, by decide⟩

/-- C6 (amended): `Dollar` resolves exactly like index `-1` (it is the
same call); a non-negative in-range index whose entry holds a value
resolves to that entry; a negative index resolves to the `(len + n)`-th
entry when that is in range; a negative index still negative after the
shift fails with `NumericVarNotFound` reporting the *wrapped adjusted*
index `(len + n) as usize` and the valid upper bound `len - 1`; with the
length-3 history, `$` and `-1` both resolve to the last entry. (The
`len < 2 ^ 63` bounds mirror the machine range of `isize`.) -/
theorem lookup_numeric_var_semantics
    (prev : List (Option Value)) (envNamed : String → Except Error Value)
    (symbols : List (String × Value)) (n : Nat) (m : Int) (v : Value) :
    ((lookupVar prev envNamed symbols .dollar).1 = lookupNumericVar prev (-1)) ∧
    ((lookupVar prev envNamed symbols (.numeric m)).1 = lookupNumericVar prev m) ∧
    (prev.length < 2 ^ 63 → n < prev.length → prev.getD n none = some v →
      lookupNumericVar prev (n : Int) = .ok v) ∧
    (prev.length < 2 ^ 63 → m < 0 → 0 ≤ (prev.length : Int) + m →
      prev.getD ((prev.length : Int) + m).toNat none = some v →
      lookupNumericVar prev m = .ok v) ∧
    (m < 0 → (prev.length : Int) + m < 0 →
      lookupNumericVar prev m =
        .error (.numericVarNotFound (asUsize ((prev.length : Int) + m))
          (prev.length - 1))) ∧
    (lookupNumericVar h3 (-1) = .ok (Value.number 2)) ∧
    ((lookupVar h3 envNamed symbols .dollar).1 = .ok (Value.number 2)) := by
  refine ⟨rfl, rfl, fun hlen hn hget => ?_, fun hlen hm hnn hget => ?_,
    fun hm hneg => ?_, rfl, rfl⟩
  · have h0 : (0 : Int) ≤ (n : Int) := Int.ofNat_nonneg n
    have h64 : (n : Int) < 2 ^ 64 := by
      have hn64 : n < 2 ^ 64 := by omega
      exact_mod_cast hn64
    have hwrap : asUsize (n : Int) = n := by
      rw [asUsize_eq_of_lt h0 h64, Int.toNat_ofNat]
    simp only [lookupNumericVar]
    rw [if_neg (show ¬((n : Int) < 0) by omega), hwrap,
      if_neg (show ¬((n : Int) < 0 ∨ prev.length ≤ n) by omega), hget]
  · have h0 : (0 : Int) ≤ (prev.length : Int) + m := hnn
    have h64 : (prev.length : Int) + m < 2 ^ 64 := by omega
    have hwrap : asUsize ((prev.length : Int) + m) = ((prev.length : Int) + m).toNat :=
      asUsize_eq_of_lt h0 h64
    simp only [lookupNumericVar]
    rw [if_pos hm, hwrap,
      if_neg (show ¬((prev.length : Int) + m < 0
        ∨ prev.length ≤ ((prev.length : Int) + m).toNat) by omega), hget]
  · simp only [lookupNumericVar]
    rw [if_pos hm, if_pos (Or.inl hneg)]

/-- Witness for C6 (amended): in the three-entry history, index `1`
resolves to the stored value `1`. -/
theorem lookup_numeric_var_semantics_witness :
    lookupNumericVar h3 ((1 : Nat) : Int) = .ok (Value.number 1) :=
  (lookup_numeric_var_semantics h3 envNamed0 [] 1 (-2) (Value.number 1)).2.2.1
    (by decide) (by decide) rfl

/-- C8 counterexample: the empty set does not display identically to
`Void` — `ValueKind::show` renders an empty `Set` as `"[]"` and `Void` as
`"()"`, under any environment services. -/
theorem empty_set_displays_brackets :
    (ValueKind.set .nil).showStr env0 = .ok "[]"
    ∧ ValueKind.void.showStr env0 = .ok "()"
    ∧ ("[]" : String) ≠ "()" := ⟨rfl, rfl, by decide⟩

/-- C8 (amended): `is_void()` is true for `Void` and for an empty
`Set(T)`, but the two are not identical at the public interface: the
empty set displays as `"[]"` while `Void` displays as `"()"` (for every
environment), and the derived type equality distinguishes `Type::Void`
from `Type::Set(T)`; the `Void == Set([])` identification exists only in
`is_void`. -/
theorem empty_set_is_void_but_displays_differently :
    ∀ (t : Ty) (env : ShowEnv),
      (ValueKind.set .nil).isVoid = true
      ∧ ValueKind.void.isVoid = true
      ∧ (ValueKind.set .nil).showStr env = .ok "[]"
      ∧ ValueKind.void.showStr env = .ok "()"
      ∧ Ty.void ≠ Ty.set t :=
  fun t env => ⟨rfl, rfl, rfl, rfl, fun h => Ty.noConfusion h⟩

/-- C9: every statement-level failure is caught at the statement
boundary: a lexing error prints the caret line and the message, a parsing
error prints the message, and an interpreter error (any of type-check or
evaluation) prints `Error: {e}`; each of these appends a `None` entry to
the history and the loop keeps running; empty input is silently ignored;
the loop only stops when the interpreter signals a process exit, and
`Repl::exec_meta` signals one exactly for the `exit` meta-command. -/
theorem repl_catches_errors (prev : List (Option Value)) (promptLen : Nat)
    (interp : Statement → InterpOutcome) :
    (∀ msg offset, replStep prev promptLen (.error (.lexing msg offset)) interp =
      ⟨prev ++ [none], [.caretLine (offset + promptLen), .message msg], true⟩) ∧
    (∀ msg, replStep prev promptLen (.error (.parsing msg)) interp =
      ⟨prev ++ [none], [.message msg], true⟩) ∧
    (∀ stmt e, interp stmt = .err e → replStep prev promptLen (.ok stmt) interp =
      ⟨prev ++ [none], [.interpErr e], true⟩) ∧
    (replStep prev promptLen (.error .emptyInput) interp = ⟨prev, [], true⟩) ∧
    (∀ parseRes, (replStep prev promptLen parseRes interp).running = false →
      ∃ stmt, parseRes = .ok stmt ∧ interp stmt = .exited) ∧
    (∀ mk, execMeta mk = .exited ↔ mk = .exit) := by
  refine ⟨fun msg offset => rfl, fun msg => rfl, fun stmt e h => ?_, rfl,
    fun parseRes h => ?_, fun mk => ?_⟩
  · simp [replStep, h]
  · match parseRes with
    | .ok stmt =>
      cases hi : interp stmt with
      | ok v => simp [replStep, hi] at h
      | err e => simp [replStep, hi] at h
      | exited => exact ⟨stmt, rfl, hi⟩
    | .error .emptyInput => simp [replStep] at h
    | .error (.lexing m o) => simp [replStep] at h
    | .error (.parsing m) => simp [replStep] at h
    | .error (.otherParse m) => simp [replStep] at h
  · cases mk with
    | exit => simp [execMeta]
    | help => simp [execMeta]

/-- Witness for C9: a statement failing with `EmptySet` under an empty
history yields a `None` history entry, an `Error:` print, and a still
running loop; the `exit` meta-command signals the process exit. -/
theorem repl_catches_errors_witness :
    replStep [] 4 (.ok (.meta .help)) interpErr0 =
      ⟨[none], [.interpErr .emptySet], true⟩
    ∧ execMeta .exit = .exited :=
  ⟨(repl_catches_errors [] 4 interpErr0).2.2.1 (.meta .help) .emptySet rfl,
   ((repl_catches_errors [] 4 interpErr0).2.2.2.2.2 .exit).mpr rfl⟩

/-- Helper for C7: the tree-assembly step commutes with the offset
shift. -/
theorem mkTreeTok_shift (input : List Char) (k position : Nat) (acc : List Token) :
    mkTreeTok input k position (acc.map (shiftTok k)) =
      shiftResult k (mkTreeTok input 0 position acc) := by
  unfold mkTreeTok
  cases takeBytes input position with
  | none => rfl
  | some text => simp [shiftResult, shiftTok]

/-- Helper for C7: pushing a freshly produced token and assembling the
tree commutes with the offset shift. -/
theorem mkTreeTok_shift_push (input : List Char) (k position len : Nat)
    (acc : List Token) (kind : TokenKind) (text : List Char) :
    mkTreeTok input k (position + len)
      (acc.map (shiftTok k) ++ [(kind, ⟨k + position, text⟩)]) =
    shiftResult k (mkTreeTok input 0 (position + len)
      (acc ++ [(kind, ⟨0 + position, text⟩)])) := by
  have hmap : acc.map (shiftTok k) ++ [(kind, (⟨k + position, text⟩ : TokSpan))] =
      (acc ++ [(kind, (⟨0 + position, text⟩ : TokSpan))]).map (shiftTok k) := by
    simp [shiftTok] <;> omega
  rw [hmap]
  exact mkTreeTok_shift input k (position + len) (acc ++ [(kind, ⟨0 + position, text⟩)])

/-- Helper for C7: pushing a freshly produced token and continuing the
loop commutes with the offset shift. -/
theorem lexTreeAux_shift_step (input : List Char) (k fuel position len : Nat)
    (acc : List Token) (kind : TokenKind) (text : List Char)
    (ih : ∀ (position : Nat) (acc : List Token),
      lexTreeAux input k fuel position (acc.map (shiftTok k)) =
        shiftResult k (lexTreeAux input 0 fuel position acc)) :
    lexTreeAux input k fuel (position + len)
      (acc.map (shiftTok k) ++ [(kind, ⟨k + position, text⟩)]) =
    shiftResult k (lexTreeAux input 0 fuel (position + len)
      (acc ++ [(kind, ⟨0 + position, text⟩)])) := by
  have hmap : acc.map (shiftTok k) ++ [(kind, (⟨k + position, text⟩ : TokSpan))] =
      (acc ++ [(kind, (⟨0 + position, text⟩ : TokSpan))]).map (shiftTok k) := by
    simp [shiftTok] <;> omega
  rw [hmap]
  exact ih (position + len) (acc ++ [(kind, ⟨0 + position, text⟩)])

/-- Helper: one-step unfolding of the loop when the slice panics. -/
theorem lexTreeAux_succ_none {input : List Char} (offset fuel position : Nat)
    (acc : List Token) (h : dropBytes input position = none) :
    lexTreeAux input offset (fuel + 1) position acc = .panic := by
  simp [lexTreeAux, h]

/-- Helper: one-step unfolding of the loop at the end of input. -/
theorem lexTreeAux_succ_nil {input : List Char} (offset fuel position : Nat)
    (acc : List Token) (h : dropBytes input position = some []) :
    lexTreeAux input offset (fuel + 1) position acc =
      mkTreeTok input offset position acc := by
  simp [lexTreeAux, h]

/-- Helper: one-step unfolding of the loop on a whitespace skip. -/
theorem lexTreeAux_succ_ws {input : List Char} (offset fuel position : Nat)
    (acc : List Token) {c : Char} {rest : List Char}
    (h : dropBytes input position = some (c :: rest))
    (ht : lexTokCore c rest = .ws) :
    lexTreeAux input offset (fuel + 1) position acc =
      lexTreeAux input offset fuel (position + 1) acc := by
  simp [lexTreeAux, h, ht]

/-- Helper: one-step unfolding of the loop on a token error. -/
theorem lexTreeAux_succ_err {input : List Char} (offset fuel position : Nat)
    (acc : List Token) {c : Char} {rest : List Char} {msg : String} {rel : Nat}
    (h : dropBytes input position = some (c :: rest))
    (ht : lexTokCore c rest = .err msg rel) :
    lexTreeAux input offset (fuel + 1) position acc =
      .err msg (offset + position + rel) := by
  simp [lexTreeAux, h, ht]

/-- Helper: one-step unfolding of the loop on a produced token. -/
theorem lexTreeAux_succ_tok {input : List Char} (offset fuel position : Nat)
    (acc : List Token) {c : Char} {rest : List Char} {kind : TokenKind}
    {text : List Char} {len : Nat}
    (h : dropBytes input position = some (c :: rest))
    (ht : lexTokCore c rest = .tok kind text len) :
    lexTreeAux input offset (fuel + 1) position acc =
      match kind with
      | .symbol .hash => mkTreeTok input offset position acc
      | .symbol .semiColon =>
        mkTreeTok input offset (position + len)
          (acc ++ [(kind, ⟨offset + position, text⟩)])
      | _ =>
        lexTreeAux input offset fuel (position + len)
          (acc ++ [(kind, ⟨offset + position, text⟩)]) := by
  rw [show lexTreeAux input offset (fuel + 1) position acc =
      match dropBytes input position with
      | none => LexResult.panic
      | some [] => mkTreeTok input offset position acc
      | some (c :: rest) =>
        match lexTokCore c rest with
        | .err msg rel => .err msg (offset + position + rel)
        | .ws => lexTreeAux input offset fuel (position + 1) acc
        | .tok kind text len =>
          match kind with
          | .symbol .hash => mkTreeTok input offset position acc
          | .symbol .semiColon =>
            mkTreeTok input offset (position + len)
              (acc ++ [(kind, ⟨offset + position, text⟩)])
          | _ =>
            lexTreeAux input offset fuel (position + len)
              (acc ++ [(kind, ⟨offset + position, text⟩)])
    from rfl]
  simp only [h, ht]
  cases kind with
  | symbol s => cases s <;> rfl
  | ident => rfl
  | number n => rfl
  | rawTree => rfl
  | tree toks => rfl

/-- Helper for C7: the lexing loop at offset `k` produces exactly the
shift by `k` of the loop at offset `0`, for every fuel, position and
(shifted) accumulator. -/
theorem lexTreeAux_shift (input : List Char) (k : Nat) :
    ∀ (fuel position : Nat) (acc : List Token),
      lexTreeAux input k fuel position (acc.map (shiftTok k)) =
        shiftResult k (lexTreeAux input 0 fuel position acc) := by
  intro fuel
  induction fuel with
  | zero => intro position acc; rfl
  | succ fuel ih =>
    intro position acc
    cases hdrop : dropBytes input position with
    | none =>
      rw [lexTreeAux_succ_none k fuel position _ hdrop,
        lexTreeAux_succ_none 0 fuel position acc hdrop]
      rfl
    | some cur =>
      cases cur with
      | nil =>
        rw [lexTreeAux_succ_nil k fuel position _ hdrop,
          lexTreeAux_succ_nil 0 fuel position acc hdrop]
        exact mkTreeTok_shift input k position acc
      | cons c rest =>
        cases htok : lexTokCore c rest with
        | ws =>
          rw [lexTreeAux_succ_ws k fuel position _ hdrop htok,
            lexTreeAux_succ_ws 0 fuel position acc hdrop htok]
          exact ih (position + 1) acc
        | err msg rel =>
          rw [lexTreeAux_succ_err k fuel position _ hdrop htok,
            lexTreeAux_succ_err 0 fuel position acc hdrop htok]
          simp only [shiftResult]
          exact congrArg (LexResult.err msg) (by omega)
        | tok kind text len =>
          rw [lexTreeAux_succ_tok k fuel position _ hdrop htok,
            lexTreeAux_succ_tok 0 fuel position acc hdrop htok]
          cases kind with
          | symbol s =>
            cases s <;>
              first
                | exact mkTreeTok_shift input k position acc
                | exact mkTreeTok_shift_push input k position len acc _ text
                | exact lexTreeAux_shift_step input k fuel position len acc _ text ih
          | ident => exact lexTreeAux_shift_step input k fuel position len acc _ text ih
          | number n => exact lexTreeAux_shift_step input k fuel position len acc _ text ih
          | rawTree => exact lexTreeAux_shift_step input k fuel position len acc _ text ih
          | tree toks => exact lexTreeAux_shift_step input k fuel position len acc _ text ih

/-- C7: lexing is a pure function of `(input, offset)` — for every input
and every offset `k`, `lex(s, k)` produces exactly the same token kinds
and span texts as `lex(s, 0)`, with every span start offset (of the
result tree and of each token in it) and every error offset shifted by
exactly `k`; a panic at offset `k` is a panic at offset `0`. -/
theorem lex_spans_shift_by_offset :
    ∀ (s : List Char) (k : Nat), lex s k = shiftResult k (lex s 0) := by
  intro s k
  have h := lexTreeAux_shift s k (byteLen s + 1) 0 []
  simpa [lex] using h

/-- C10: `lex` is not total — on the input consisting of the single
non-ASCII whitespace character U+00A0 (2 bytes in UTF-8), the
whitespace-skip path advances the byte position by 1 instead of the
character's width, and the next iteration slices the input inside the
character, which panics. -/
theorem lex_panics_on_multibyte_whitespace :
    lex [Char.ofNat 0xA0] 0 = .panic
    ∧ rustIsWhitespace (Char.ofNat 0xA0) = true
    ∧ (Char.ofNat 0xA0).utf8Size = 2 := ⟨rfl, rfl, rfl⟩
